import Mathlib

/-!
Verification development for the authorization subsystem of the
homelab-mcp server (OAuth 2.0 authorization-code + PKCE flow, bearer
token issuance/validation, capability-level gated tool dispatch).

The definitions below are a shallow embedding of the TypeScript source:

* oauth.ts: token store, authorization-code store, `timingSafeEqual`,
  `validateClientCredentials`, `issueToken`, `validateAccessToken`,
  `createAuthorizationCode`, `validateAuthorizationCode`,
  `validatePKCE`, and the periodic expiry reaper.
* index.ts: the tool-call dispatcher (CallToolRequestSchema handler)
  and the `/authorize` and `/oauth/token` HTTP request branches.
* tools/index.ts: `getToolsForLevel` and `getTool` over a tool registry.

Conventions of the embedding:

* JavaScript `Map<string, V>` values are modelled extensionally as
  functions `String → Option V`; `Map.set` / `Map.delete` become
  `mapSet` / `mapDelete`. Mutation of the module-global maps becomes
  explicit state passing: each operation returns its result together
  with the updated store.
* `Date.now()` becomes an explicit `now : Nat` argument (milliseconds).
* `randomBytes(32).toString('hex')` becomes an explicit argument
  carrying the generated identifier (the randomness is an input).
* Strings are treated at the code-unit level; byte lengths of the
  ASCII credentials compared by `timingSafeEqual` coincide with
  `String.length`.
* JavaScript truthiness of an optional string parameter (absent or
  empty string is falsy) is `optFalsy`.
-/

namespace HomelabMcp

/-- Extensional model of a JavaScript Map keyed by strings. -/
abbrev StrMap (α : Type) := String → Option α

/-- Model of Map.set: point update of the extensional map. -/
def mapSet {α : Type} (m : StrMap α) (key : String) (v : α) : StrMap α :=
  fun k => if k = key then some v else m k

/-- Model of Map.delete: remove the binding at the given key. -/
def mapDelete {α : Type} (m : StrMap α) (key : String) : StrMap α :=
  fun k => if k = key then none else m k

/-- Model of the empty Map. -/
def mapEmpty {α : Type} : StrMap α := fun _ => none

/-- JavaScript truthiness test for an optional string parameter:
absent (undefined or null) and the empty string are falsy. -/
def optFalsy : Option String → Bool
  | none => true
  | some s => s == ""

/-- The slice of the server Config (types.ts / config.ts) that the
authorization subsystem reads: the static API key (empty string when
unset, matching the `process.env.API_KEY or empty` default), the
configured capability level, and the optional OAuth client credentials. -/
structure Config where
  apiKey : String
  capabilityLevel : Nat
  oauthClientId : Option String
  oauthClientSecret : Option String

/-- The `hasOAuth` flag computed at server startup in index.ts:
both OAuth client id and secret are configured (truthy). -/
def hasOAuthConfig (config : Config) : Bool :=
  !(optFalsy config.oauthClientId) && !(optFalsy config.oauthClientSecret)

/-- TOKEN_EXPIRATION from oauth.ts: token lifetime in seconds. -/
def TOKEN_EXPIRATION : Nat := 3600

/-- AUTH_CODE_EXPIRATION from oauth.ts: code lifetime in seconds. -/
def AUTH_CODE_EXPIRATION : Nat := 600

/-- Interval of the expiry reaper's setInterval in oauth.ts, in
milliseconds. -/
def reaperIntervalMs : Nat := 60000

/-- Value stored for an active access token in oauth.ts. -/
structure TokenData where
  expiresAt : Nat
deriving DecidableEq, Repr

/-- Value stored for a pending authorization code in oauth.ts. -/
structure AuthCodeData where
  codeChallenge : String
  codeChallengeMethod : String
  clientId : String
  redirectUri : String
  expiresAt : Nat
deriving DecidableEq, Repr

/-- The activeTokens map of oauth.ts. -/
abbrev TokenStore := StrMap TokenData

/-- The authorizationCodes map of oauth.ts. -/
abbrev CodeStore := StrMap AuthCodeData

/-- The timingSafeEqual wrapper in oauth.ts: compare byte lengths
first, returning false on mismatch, otherwise defer to the
constant-time crypto comparison, whose result is plain equality. -/
def timingSafeEqual (a b : String) : Bool :=
  if a.length ≠ b.length then false else a == b

/-- Cost model of the timingSafeEqual wrapper, counting byte
comparisons: a length mismatch returns before touching the bytes,
and crypto.timingSafeEqual inspects every byte of equal-length
inputs unconditionally. -/
def timingSafeEqualCost (a b : String) : Nat :=
  if a.length ≠ b.length then 0 else a.length

/-- Number of character comparisons performed by a short-circuiting
left-to-right equality scan, stopping at the first difference. -/
def shortCircuitEqCost : List Char → List Char → Nat
  | [], _ => 0
  | _, [] => 0
  | a :: as, b :: bs => 1 + (if a = b then shortCircuitEqCost as bs else 0)

/-- Cost model of the plain JavaScript string equality used at
the apiKey check in validateAccessToken: lengths are compared in
constant time, then characters are scanned until the first
difference. -/
def jsStrEqCost (a b : String) : Nat :=
  if a.length ≠ b.length then 0 else shortCircuitEqCost a.data b.data

/-- validateClientCredentials from oauth.ts: fail when either OAuth
credential is unconfigured (falsy), otherwise compare both fields
independently with timingSafeEqual. -/
def validateClientCredentials (clientId clientSecret : String) (config : Config) : Bool :=
  if optFalsy config.oauthClientId || optFalsy config.oauthClientSecret then
    false
  else
    timingSafeEqual clientId (config.oauthClientId.getD "") &&
      timingSafeEqual clientSecret (config.oauthClientSecret.getD "")

/-- The token_type / expires_in payload returned by issueToken. -/
structure TokenResponse where
  access_token : String
  token_type : String
  expires_in : Nat
deriving DecidableEq, Repr

/-- issueToken from oauth.ts: store the freshly generated token with
expiresAt = now + TOKEN_EXPIRATION seconds (in ms) and return the
bearer response. The random hex string is the `token` argument. -/
def issueToken (token : String) (now : Nat) (store : TokenStore) :
    TokenResponse × TokenStore :=
  (⟨token, "Bearer", TOKEN_EXPIRATION⟩,
    mapSet store token ⟨now + TOKEN_EXPIRATION * 1000⟩)

/-- validateAccessToken from oauth.ts. First branch: the static API
key check, written in the source as a plain equality `token ===
config.apiKey` guarded by truthiness of config.apiKey. Second: look
the token up in the store; absent gives false; present but expired
deletes the entry and gives false; otherwise true. Returns the
result together with the (possibly updated) store. -/
def validateAccessToken (token : String) (config : Config)
    (store : TokenStore) (now : Nat) : Bool × TokenStore :=
  if config.apiKey ≠ "" ∧ token = config.apiKey then
    (true, store)
  else
    match store token with
    | none => (false, store)
    | some tokenData =>
      if tokenData.expiresAt < now then
        (false, mapDelete store token)
      else
        (true, store)

/-- Cost, in the short-circuit model, of the comparison the apiKey
branch of validateAccessToken performs between the presented token
and the configured key. -/
def validateAccessTokenCompareCost (token : String) (config : Config) : Nat :=
  jsStrEqCost token config.apiKey

/-- createAuthorizationCode from oauth.ts: store the challenge,
method, client id and redirect URI under the freshly generated code
with expiresAt = now + AUTH_CODE_EXPIRATION seconds (in ms), and
return the code. The random hex string is the `code` argument. -/
def createAuthorizationCode (code clientId redirectUri codeChallenge
    codeChallengeMethod : String) (now : Nat) (store : CodeStore) :
    String × CodeStore :=
  (code, mapSet store code
    ⟨codeChallenge, codeChallengeMethod, clientId, redirectUri,
      now + AUTH_CODE_EXPIRATION * 1000⟩)

/-- Result record of validateAuthorizationCode. -/
structure CodeValidation where
  valid : Bool
  error : Option String
deriving DecidableEq, Repr

/-! SHA-256, embedded from the standard algorithm invoked by
createHash in validatePKCE. Words are Nat reduced mod 2^32. -/

/-- Modulus for 32-bit words. -/
def pow32 : Nat := 4294967296

/-- Right rotation of a 32-bit word. -/
def rotr32 (n x : Nat) : Nat :=
  ((x >>> n) ||| (x <<< (32 - n))) % pow32

/-- Addition mod 2^32. -/
def add32 (a b : Nat) : Nat := (a + b) % pow32

/-- Message-schedule sigma-0. -/
def bSig0 (x : Nat) : Nat := (rotr32 7 x) ^^^ (rotr32 18 x) ^^^ (x >>> 3)

/-- Message-schedule sigma-1. -/
def bSig1 (x : Nat) : Nat := (rotr32 17 x) ^^^ (rotr32 19 x) ^^^ (x >>> 10)

/-- Compression Sigma-0. -/
def uSig0 (x : Nat) : Nat := (rotr32 2 x) ^^^ (rotr32 13 x) ^^^ (rotr32 22 x)

/-- Compression Sigma-1. -/
def uSig1 (x : Nat) : Nat := (rotr32 6 x) ^^^ (rotr32 11 x) ^^^ (rotr32 25 x)

/-- Choice function; 32-bit complement written as xor with the
all-ones word. -/
def ch32 (x y z : Nat) : Nat := (x &&& y) ^^^ ((x ^^^ 4294967295) &&& z)

/-- Majority function. -/
def maj32 (x y z : Nat) : Nat := (x &&& y) ^^^ (x &&& z) ^^^ (y &&& z)

/-- The 64 SHA-256 round constants. -/
def sha256K : List Nat :=
  [1116352408, 1899447441, 3049323471, 3921009573, 961987163,
   1508970993, 2453635748, 2870763221, 3624381080, 310598401,
   607225278, 1426881987, 1925078388, 2162078206, 2614888103,
   3248222580, 3835390401, 4022224774, 264347078, 604807628,
   770255983, 1249150122, 1555081692, 1996064986, 2554220882,
   2821834349, 2952996808, 3210313671, 3336571891, 3584528711,
   113926993, 338241895, 666307205, 773529912, 1294757372,
   1396182291, 1695183700, 1986661051, 2177026350, 2456956037,
   2730485921, 2820302411, 3259730800, 3345764771, 3516065817,
   3600352804, 4094571909, 275423344, 430227734, 506948616,
   659060556, 883997877, 958139571, 1322822218, 1537002063,
   1747873779, 1955562222, 2024104815, 2227730452, 2361852424,
   2428436474, 2756734187, 3204031479, 3329325298]

/-- The SHA-256 initial hash state. -/
def sha256InitH : List Nat :=
  [1779033703, 3144134277, 1013904242, 2773480762,
   1359893119, 2600822924, 528734635, 1541459225]

/-- Pack big-endian bytes into 32-bit words. -/
def toWords : List Nat → List Nat
  | a :: b :: c :: d :: rest => (((a * 256 + b) * 256 + c) * 256 + d) :: toWords rest
  | _ => []

/-- Extend the 16-word message schedule by the given number of
words (48 for SHA-256). -/
def extendW : Nat → List Nat → List Nat
  | 0, w => w
  | n + 1, w =>
    let i := w.length
    let wi := add32 (add32 (bSig1 (w.getD (i - 2) 0)) (w.getD (i - 7) 0))
      (add32 (bSig0 (w.getD (i - 15) 0)) (w.getD (i - 16) 0))
    extendW n (w ++ [wi])

/-- One SHA-256 compression round on the eight-word working state. -/
def compressRound (st : List Nat) (k w : Nat) : List Nat :=
  match st with
  | [a, b, c, d, e, f, g, h] =>
    let t1 := add32 h (add32 (uSig1 e) (add32 (ch32 e f g) (add32 k w)))
    let t2 := add32 (uSig0 a) (maj32 a b c)
    [add32 t1 t2, a, b, c, add32 d t1, e, f, g]
  | other => other

/-- Compress one 64-byte block into the hash state. -/
def compressBlock (h : List Nat) (block : List Nat) : List Nat :=
  let w := extendW 48 (toWords block)
  let fin := (sha256K.zip w).foldl (fun st kw => compressRound st kw.1 kw.2) h
  List.zipWith add32 h fin

/-- Split into 64-byte chunks; the fuel argument (an upper bound on
the number of chunks) keeps the recursion structural. -/
def chunks64Fuel : Nat → List Nat → List (List Nat)
  | 0, _ => []
  | _, [] => []
  | n + 1, l => l.take 64 :: chunks64Fuel n (l.drop 64)

/-- Split a byte list into 64-byte chunks. -/
def chunks64 (l : List Nat) : List (List Nat) :=
  chunks64Fuel l.length l

/-- Big-endian 8-byte encoding of the bit length. -/
def be64 (n : Nat) : List Nat :=
  [n / 2 ^ 56 % 256, n / 2 ^ 48 % 256, n / 2 ^ 40 % 256, n / 2 ^ 32 % 256,
   n / 2 ^ 24 % 256, n / 2 ^ 16 % 256, n / 2 ^ 8 % 256, n % 256]

/-- SHA-256 padding: a 0x80 byte, zeros to 56 mod 64, then the
bit length. -/
def padMessage (msg : List Nat) : List Nat :=
  let len := msg.length
  let zeros := (56 + 64 - (len + 1) % 64) % 64
  msg ++ [0x80] ++ List.replicate zeros 0 ++ be64 (len * 8)

/-- Big-endian bytes of a 32-bit word. -/
def wordBytes (w : Nat) : List Nat :=
  [w / 2 ^ 24 % 256, w / 2 ^ 16 % 256, w / 2 ^ 8 % 256, w % 256]

/-- SHA-256 of a byte list, as the 32-byte digest. -/
def sha256 (msg : List Nat) : List Nat :=
  let hFinal := (chunks64 (padMessage msg)).foldl compressBlock sha256InitH
  (hFinal.map wordBytes).flatten

/-- The URL-safe base64 alphabet. -/
def base64UrlAlphabet : List Char :=
  "ABCDEFGHIJKLMNOPQRSTUVWXYZabcdefghijklmnopqrstuvwxyz0123456789-_".data

/-- Character for a 6-bit group. -/
def b64Char (n : Nat) : Char := base64UrlAlphabet.getD n 'A'

/-- URL-safe base64 without padding, three input bytes to four
output characters, partial final group unpadded (Node's base64url
digest encoding). -/
def base64UrlChars : List Nat → List Char
  | [] => []
  | [a] => [b64Char (a / 4), b64Char (a % 4 * 16)]
  | [a, b] => [b64Char (a / 4), b64Char (a % 4 * 16 + b / 16), b64Char (b % 16 * 4)]
  | a :: b :: c :: rest =>
    b64Char (a / 4) :: b64Char (a % 4 * 16 + b / 16) ::
      b64Char (b % 16 * 4 + c / 64) :: b64Char (c % 64) :: base64UrlChars rest

/-- URL-safe unpadded base64 of a byte list, as a string. -/
def base64UrlEncode (bytes : List Nat) : String :=
  String.mk (base64UrlChars bytes)

/-- Bytes of a string; the inputs hashed here (code verifiers) are
ASCII, where UTF-8 bytes coincide with the code points. -/
def strBytes (s : String) : List Nat := s.data.map Char.toNat

/-- validatePKCE from oauth.ts: for method S256 the base64url-encoded
SHA-256 digest of the verifier must equal the challenge; for plain
the verifier must equal the challenge; any other method fails. -/
def validatePKCE (codeVerifier codeChallenge codeChallengeMethod : String) : Bool :=
  if codeChallengeMethod == "S256" then
    base64UrlEncode (sha256 (strBytes codeVerifier)) == codeChallenge
  else if codeChallengeMethod == "plain" then
    codeVerifier == codeChallenge
  else
    false

/-- validateAuthorizationCode from oauth.ts: look the code up (absent
fails with "Invalid authorization code"); delete it before the
remaining checks; then check expiry, client id, redirect URI and
PKCE in that order, the first failure determining the error; all
checks passing yields valid. Returns the result with the updated
store. -/
def validateAuthorizationCode (code clientId redirectUri codeVerifier : String)
    (now : Nat) (store : CodeStore) : CodeValidation × CodeStore :=
  match store code with
  | none => (⟨false, some "Invalid authorization code"⟩, store)
  | some codeData =>
    let store₁ := mapDelete store code
    if codeData.expiresAt < now then
      (⟨false, some "Authorization code expired"⟩, store₁)
    else if codeData.clientId ≠ clientId then
      (⟨false, some "Client ID mismatch"⟩, store₁)
    else if codeData.redirectUri ≠ redirectUri then
      (⟨false, some "Redirect URI mismatch"⟩, store₁)
    else if !validatePKCE codeVerifier codeData.codeChallenge codeData.codeChallengeMethod then
      (⟨false, some "Invalid code verifier"⟩, store₁)
    else
      (⟨true, none⟩, store₁)

/-! The expiry reaper (setInterval in oauth.ts). -/

/-- Joint mutable state of the two oauth.ts stores. -/
structure OAuthState where
  codes : CodeStore
  tokens : TokenStore

/-- One sweep of a store by the reaper: delete every entry whose
expiresAt has passed. -/
def sweepTokens (now : Nat) (store : TokenStore) : TokenStore :=
  fun k =>
    match store k with
    | some d => if d.expiresAt < now then none else some d
    | none => none

/-- Reaper sweep of the authorization-code store. -/
def sweepCodes (now : Nat) (store : CodeStore) : CodeStore :=
  fun k =>
    match store k with
    | some d => if d.expiresAt < now then none else some d
    | none => none

/-- One reaper tick: sweep both stores. -/
def reap (now : Nat) (st : OAuthState) : OAuthState :=
  ⟨sweepCodes now st.codes, sweepTokens now st.tokens⟩

/-! The capability gate / dispatcher (index.ts, CallToolRequestSchema
handler) over the external tool registry (tools/index.ts). -/

/-- A JSON value, the shape of tool arguments, handler results and
the dispatcher's error payload. The dispatcher serializes these
with JSON.stringify before returning; the claims concern the
structured value, so the embedding keeps it structured. -/
inductive Json where
  | null
  | bool (b : Bool)
  | num (n : Nat)
  | str (s : String)
  | arr (xs : List Json)
  | obj (fields : List (String × Json))

/-- A value thrown by a JavaScript handler: either an Error object
(with its message) or any non-Error value. -/
inductive JsThrown where
  | errObj (message : String)
  | nonError
deriving DecidableEq

/-- The message the dispatcher extracts from a thrown value:
error.message for an Error instance, a fixed fallback otherwise. -/
def errorMessageOf : JsThrown → String
  | .errObj m => m
  | .nonError => "Unknown error"

/-- A tool registry entry (ToolDefinition in tools/index.ts); the
description and input schema play no role in dispatch and are
elided. A handler either returns a result or throws. -/
structure ToolDefinition where
  name : String
  level : Nat
  handler : Json → Config → Except JsThrown Json

/-- getToolsForLevel from tools/index.ts: the tools whose level is
at most the configured level. -/
def getToolsForLevel (tools : List ToolDefinition) (level : Nat) : List ToolDefinition :=
  tools.filter (fun tool => tool.level ≤ level)

/-- getTool from tools/index.ts: first registry entry with the
given name. -/
def getTool (tools : List ToolDefinition) (name : String) : Option ToolDefinition :=
  tools.find? (fun tool => tool.name == name)

/-- Outcome of one dispatch: a thrown McpError (MethodNotFound for an
unknown tool, InvalidRequest for the capability denial) or a reply
payload carrying the optional isError marker. -/
inductive DispatchOutcome where
  | methodNotFound (message : String)
  | invalidRequest (message : String)
  | reply (content : Json) (isError : Bool)

/-- The structured payload the dispatcher builds when a handler
throws. -/
def toolErrorPayload (message : String) : Json :=
  .obj [("error", .bool true), ("code", .str "TOOL_EXECUTION_ERROR"),
    ("message", .str message)]

/-- The CallToolRequestSchema handler in index.ts: resolve the tool;
unknown names raise MethodNotFound; a required level above the
configured level raises InvalidRequest with a message naming both
levels, without invoking the handler; otherwise the handler runs,
a normal result is returned without the isError marker, and a
thrown failure is converted to the TOOL_EXECUTION_ERROR payload
with isError set. The second component counts handler invocations
performed by this dispatch. -/
def handleCallTool (tools : List ToolDefinition) (config : Config)
    (toolName : String) (args : Json) : DispatchOutcome × Nat :=
  match getTool tools toolName with
  | none => (.methodNotFound ("Tool not found: " ++ toolName), 0)
  | some tool =>
    if tool.level > config.capabilityLevel then
      (.invalidRequest ("Tool " ++ toolName ++ " requires capability level " ++
        toString tool.level ++ ", current level is " ++
        toString config.capabilityLevel), 0)
    else
      match tool.handler args config with
      | .ok result => (.reply result false, 1)
      | .error e => (.reply (toolErrorPayload (errorMessageOf e)) true, 1)

/-! The /authorize and /oauth/token HTTP request branches
(index.ts). Query and body parameters arrive as optional strings;
JavaScript falsiness of a parameter is optFalsy. -/

/-- Result of the /authorize branch: a 400 JSON error (with its
optional error_description) or a 302 redirect to the redirect URI
carrying the fresh code and the echoed state. -/
inductive AuthorizeResult where
  | badRequest (error : String) (description : Option String)
  | redirect (redirectUri code : String) (state : Option String)

/-- The GET /authorize branch of index.ts: reject when OAuth is not
configured, when response_type is not code, or when client_id,
redirect_uri or code_challenge is missing; otherwise auto-approve:
create a code (method defaulting to plain) and redirect. -/
def authorizeEndpoint (responseType clientId redirectUri codeChallenge
    codeChallengeMethodParam state : Option String) (config : Config)
    (codes : CodeStore) (now : Nat) (freshCode : String) :
    AuthorizeResult × CodeStore :=
  if !hasOAuthConfig config then
    (.badRequest "OAuth not configured" none, codes)
  else if responseType ≠ some "code" then
    (.badRequest "unsupported_response_type"
      (some "Only code response type is supported"), codes)
  else if optFalsy clientId then
    (.badRequest "invalid_request" (some "client_id is required"), codes)
  else if optFalsy redirectUri then
    (.badRequest "invalid_request" (some "redirect_uri is required"), codes)
  else if optFalsy codeChallenge then
    (.badRequest "invalid_request" (some "code_challenge is required (PKCE)"), codes)
  else
    let codeChallengeMethod :=
      if optFalsy codeChallengeMethodParam then "plain"
      else codeChallengeMethodParam.getD ""
    let created := createAuthorizationCode freshCode (clientId.getD "")
      (redirectUri.getD "") (codeChallenge.getD "") codeChallengeMethod now codes
    (.redirect (redirectUri.getD "") created.1 state, created.2)

/-- Body of a /oauth/token response: the bearer success payload or
an OAuth error object. -/
inductive TokenEndpointBody where
  | success (r : TokenResponse)
  | oauthError (error : String) (description : String)
deriving DecidableEq

/-- An HTTP status paired with the token-endpoint body. -/
structure HttpResponse where
  status : Nat
  body : TokenEndpointBody
deriving DecidableEq

/-- The POST /oauth/token branch of index.ts, after body parsing and
Basic-auth merging have produced the optional parameters. The
authorization_code grant requires code, code_verifier, redirect_uri
and client_id (400 invalid_request when any is falsy), redeems the
code (400 invalid_grant on failure) and issues a token on success;
the client_credentials grant requires client_id and client_secret
(400 invalid_request), checks them (401 invalid_client on mismatch)
and issues a token; any other grant_type is rejected with 400
unsupported_grant_type. freshToken is the random token issued on
success. -/
def tokenEndpoint (grantType clientId clientSecret code codeVerifier
    redirectUri : Option String) (config : Config) (st : OAuthState)
    (now : Nat) (freshToken : String) : HttpResponse × OAuthState :=
  if !hasOAuthConfig config then
    (⟨400, .oauthError "unsupported_grant_type"
      "OAuth is not configured on this server"⟩, st)
  else if grantType = some "authorization_code" then
    if optFalsy code || optFalsy codeVerifier || optFalsy redirectUri ||
        optFalsy clientId then
      (⟨400, .oauthError "invalid_request"
        "Missing code, code_verifier, redirect_uri, or client_id"⟩, st)
    else
      let validated := validateAuthorizationCode (code.getD "") (clientId.getD "")
        (redirectUri.getD "") (codeVerifier.getD "") now st.codes
      if !validated.1.valid then
        (⟨400, .oauthError "invalid_grant" (validated.1.error.getD "")⟩,
          { st with codes := validated.2 })
      else
        let issued := issueToken freshToken now st.tokens
        (⟨200, .success issued.1⟩, ⟨validated.2, issued.2⟩)
  else if grantType = some "client_credentials" then
    if optFalsy clientId || optFalsy clientSecret then
      (⟨400, .oauthError "invalid_request"
        "Missing client_id or client_secret"⟩, st)
    else if !validateClientCredentials (clientId.getD "") (clientSecret.getD "") config then
      (⟨401, .oauthError "invalid_client" "Invalid client credentials"⟩, st)
    else
      let issued := issueToken freshToken now st.tokens
      (⟨200, .success issued.1⟩, { st with tokens := issued.2 })
  else
    (⟨400, .oauthError "unsupported_grant_type"
      "Supported grant types: authorization_code, client_credentials"⟩, st)

/-! Concrete sample instances used to evaluate the definitions on
closed inputs. -/

/-- A handler that returns a fixed result. -/
def noopHandler : Json → Config → Except JsThrown Json :=
  fun _ _ => .ok (.str "ok")

/-- A handler that throws an Error carrying a message. -/
def failingHandler : Json → Config → Except JsThrown Json :=
  fun _ _ => .error (.errObj "fail")

/-- A handler that throws an Error whose message is empty. -/
def emptyMessageHandler : Json → Config → Except JsThrown Json :=
  fun _ _ => .error (.errObj "")

/-- A registry with operations at levels 1, 2 and 4, as in the
spec's capability-gate test. -/
def sampleRegistry : List ToolDefinition :=
  [⟨"t1", 1, noopHandler⟩, ⟨"t2", 2, noopHandler⟩, ⟨"t4", 4, noopHandler⟩]

/-- A registry with one normal and one throwing operation. -/
def mixedRegistry : List ToolDefinition :=
  [⟨"ok", 1, noopHandler⟩, ⟨"fail", 1, failingHandler⟩]

/-- A registry whose only operation throws an empty-message Error. -/
def emptyMessageRegistry : List ToolDefinition :=
  [⟨"boom", 1, emptyMessageHandler⟩]

/-! Shared lemmas. -/

/-- The timingSafeEqual wrapper decides plain string equality. -/
lemma timingSafeEqual_iff (a b : String) : timingSafeEqual a b = true ↔ a = b := by
  by_cases h : a.length = b.length
  · simp [timingSafeEqual, h]
  · simp [timingSafeEqual, h]
    exact fun hab => h (by rw [hab])

/-- Point lookup after mapSet at the written key. -/
lemma mapSet_self {α : Type} (m : StrMap α) (k : String) (v : α) :
    mapSet m k v k = some v := by
  simp [mapSet]

/-- Point lookup after mapDelete at the deleted key. -/
lemma mapDelete_self {α : Type} (m : StrMap α) (k : String) :
    mapDelete m k k = none := by
  simp [mapDelete]

/-- Whenever the presented code is present, every branch of
validateAuthorizationCode returns the store with that code
deleted. -/
lemma validateAuthorizationCode_deletes (store : CodeStore) (now : Nat)
    (c cid ruri v : String) (h : (store c).isSome) :
    (validateAuthorizationCode c cid ruri v now store).2 c = none := by
  obtain ⟨d, hd⟩ := Option.isSome_iff_exists.mp h
  simp only [validateAuthorizationCode, hd]
  split <;> try split
  all_goals first
    | exact mapDelete_self store c
    | (split <;> first
        | exact mapDelete_self store c
        | (split <;> exact mapDelete_self store c))

/-- An absent code fails redemption with the invalid-code error. -/
lemma validateAuthorizationCode_absent (store : CodeStore) (now : Nat)
    (c cid ruri v : String) (h : store c = none) :
    (validateAuthorizationCode c cid ruri v now store).1 =
      ⟨false, some "Invalid authorization code"⟩ := by
  simp [validateAuthorizationCode, h]

/-- C1. Authorization codes are single-use: a redemption call on a
present code deletes the code from the store whatever the call
returns; a redemption call on an absent code fails with the
invalid-code error; and a created code redeemed before expiry with
the matching client id, redirect URI and verifier succeeds, after
which a second redemption of the same code, with any parameters,
fails with the invalid-code error. -/
theorem authorization_code_single_use :
    (∀ (store : CodeStore) (now : Nat) (c cid ruri v : String),
      (store c).isSome →
      (validateAuthorizationCode c cid ruri v now store).2 c = none) ∧
    (∀ (store : CodeStore) (now : Nat) (c cid ruri v : String),
      store c = none →
      (validateAuthorizationCode c cid ruri v now store).1 =
        ⟨false, some "Invalid authorization code"⟩) ∧
    (∀ (store : CodeStore) (now₁ now₂ now₃ : Nat)
      (c cid ruri ch m v cid₂ ruri₂ v₂ : String),
      validatePKCE v ch m = true →
      ¬ now₁ + AUTH_CODE_EXPIRATION * 1000 < now₂ →
      (validateAuthorizationCode c cid ruri v now₂
          (createAuthorizationCode c cid ruri ch m now₁ store).2).1 =
        ⟨true, none⟩ ∧
      (validateAuthorizationCode c cid₂ ruri₂ v₂ now₃
          (validateAuthorizationCode c cid ruri v now₂
            (createAuthorizationCode c cid ruri ch m now₁ store).2).2).1 =
        ⟨false, some "Invalid authorization code"⟩) := by
  refine ⟨validateAuthorizationCode_deletes, validateAuthorizationCode_absent, ?_⟩
  intro store now₁ now₂ now₃ c cid ruri ch m v cid₂ ruri₂ v₂ hpkce hexp
  have hlook : (createAuthorizationCode c cid ruri ch m now₁ store).2 c =
      some ⟨ch, m, cid, ruri, now₁ + AUTH_CODE_EXPIRATION * 1000⟩ := by
    simp [createAuthorizationCode, mapSet]
  have hfirst : validateAuthorizationCode c cid ruri v now₂
      (createAuthorizationCode c cid ruri ch m now₁ store).2 =
      (⟨true, none⟩, mapDelete (createAuthorizationCode c cid ruri ch m now₁ store).2 c) := by
    simp [validateAuthorizationCode, hlook, hexp, hpkce]
  refine ⟨by rw [hfirst], ?_⟩
  rw [hfirst]
  exact validateAuthorizationCode_absent _ _ _ _ _ _
    (mapDelete_self _ _)

/-- Witness for C1 at concrete inputs: a code created at time 0 with
a plain challenge redeems successfully at time 1000, and a second
redemption of the same code fails with the invalid-code error. -/
theorem authorization_code_single_use_witness :
    (validateAuthorizationCode "c1" "client" "https://app/cb" "ver" 1000
        (createAuthorizationCode "c1" "client" "https://app/cb" "ver" "plain" 0
          mapEmpty).2).1 = ⟨true, none⟩ ∧
    (validateAuthorizationCode "c1" "other" "elsewhere" "zzz" 1000
        (validateAuthorizationCode "c1" "client" "https://app/cb" "ver" 1000
          (createAuthorizationCode "c1" "client" "https://app/cb" "ver" "plain" 0
            mapEmpty).2).2).1 = ⟨false, some "Invalid authorization code"⟩ :=
  authorization_code_single_use.2.2 mapEmpty 0 1000 1000
    "c1" "client" "https://app/cb" "ver" "plain" "ver" "other" "elsewhere" "zzz"
    (by decide) (by decide)

/-- C6. With the code present, the residual checks run in the order
expiry, client id, redirect URI, PKCE, each failing with its own
error, the first failing check determining the reason; an expired
code fails with the expiry reason regardless of the reaper, and
when every check passes the result is valid. -/
theorem redeem_check_order (store : CodeStore) (d : AuthCodeData)
    (now : Nat) (c cid ruri v : String) (hc : store c = some d) :
    (d.expiresAt < now →
      (validateAuthorizationCode c cid ruri v now store).1 =
        ⟨false, some "Authorization code expired"⟩) ∧
    (¬ d.expiresAt < now → d.clientId ≠ cid →
      (validateAuthorizationCode c cid ruri v now store).1 =
        ⟨false, some "Client ID mismatch"⟩) ∧
    (¬ d.expiresAt < now → d.clientId = cid → d.redirectUri ≠ ruri →
      (validateAuthorizationCode c cid ruri v now store).1 =
        ⟨false, some "Redirect URI mismatch"⟩) ∧
    (¬ d.expiresAt < now → d.clientId = cid → d.redirectUri = ruri →
      validatePKCE v d.codeChallenge d.codeChallengeMethod = false →
      (validateAuthorizationCode c cid ruri v now store).1 =
        ⟨false, some "Invalid code verifier"⟩) ∧
    (¬ d.expiresAt < now → d.clientId = cid → d.redirectUri = ruri →
      validatePKCE v d.codeChallenge d.codeChallengeMethod = true →
      (validateAuthorizationCode c cid ruri v now store).1 = ⟨true, none⟩) := by
  refine ⟨?_, ?_, ?_, ?_, ?_⟩
  · intro h₁
    simp [validateAuthorizationCode, hc, h₁]
  · intro h₁ h₂
    simp [validateAuthorizationCode, hc, h₁, h₂]
  · intro h₁ h₂ h₃
    simp [validateAuthorizationCode, hc, h₁, h₂, h₃]
  · intro h₁ h₂ h₃ h₄
    simp [validateAuthorizationCode, hc, h₁, h₂, h₃, h₄]
  · intro h₁ h₂ h₃ h₄
    simp [validateAuthorizationCode, hc, h₁, h₂, h₃, h₄]

/-- Witness for C6 at concrete inputs: a code that expired at time
500 fails redemption at time 1000 with the expiry error even though
no reaper sweep removed it. -/
theorem redeem_check_order_witness :
    (validateAuthorizationCode "c2" "client" "https://app/cb" "ver" 1000
        (mapSet mapEmpty "c2"
          ⟨"ver", "plain", "client", "https://app/cb", 500⟩)).1 =
      ⟨false, some "Authorization code expired"⟩ :=
  (redeem_check_order
    (mapSet mapEmpty "c2" ⟨"ver", "plain", "client", "https://app/cb", 500⟩)
    ⟨"ver", "plain", "client", "https://app/cb", 500⟩ 1000
    "c2" "client" "https://app/cb" "ver" (by decide)).1 (by decide)

/-- C9. The reaper fires every 60 seconds, and one sweep of either
store keeps exactly the entries whose expiry has not passed: an
entry survives the sweep if and only if it was stored and
unexpired (so unexpired entries are untouched), and immediately
after a sweep no stored code or token is expired. -/
theorem reaper_sweeps_expired :
    reaperIntervalMs = 60000 ∧
    (∀ (now : Nat) (st : OAuthState) (k : String) (d : AuthCodeData),
      (reap now st).codes k = some d ↔
        st.codes k = some d ∧ ¬ d.expiresAt < now) ∧
    (∀ (now : Nat) (st : OAuthState) (k : String) (d : TokenData),
      (reap now st).tokens k = some d ↔
        st.tokens k = some d ∧ ¬ d.expiresAt < now) ∧
    (∀ (now : Nat) (st : OAuthState) (k : String) (d : AuthCodeData),
      (reap now st).codes k = some d → ¬ d.expiresAt < now) ∧
    (∀ (now : Nat) (st : OAuthState) (k : String) (d : TokenData),
      (reap now st).tokens k = some d → ¬ d.expiresAt < now) := by
  have hc : ∀ (now : Nat) (st : OAuthState) (k : String) (d : AuthCodeData),
      (reap now st).codes k = some d ↔
        st.codes k = some d ∧ ¬ d.expiresAt < now := by
    intro now st k d
    simp only [reap, sweepCodes]
    cases h : st.codes k with
    | none => simp
    | some d₀ =>
      by_cases hexp : d₀.expiresAt < now
      · simp [hexp]
        rintro rfl
        omega
      · simp [hexp]
        rintro rfl
        omega
  have ht : ∀ (now : Nat) (st : OAuthState) (k : String) (d : TokenData),
      (reap now st).tokens k = some d ↔
        st.tokens k = some d ∧ ¬ d.expiresAt < now := by
    intro now st k d
    simp only [reap, sweepTokens]
    cases h : st.tokens k with
    | none => simp
    | some d₀ =>
      by_cases hexp : d₀.expiresAt < now
      · simp [hexp]
        rintro rfl
        omega
      · simp [hexp]
        rintro rfl
        omega
  exact ⟨rfl, hc, ht,
    fun now st k d h => ((hc now st k d).mp h).2,
    fun now st k d h => ((ht now st k d).mp h).2⟩

/-- Witness for C9 at concrete inputs: sweeping at time 1000 a state
holding an expired code and an unexpired token removes the code and
keeps the token. -/
theorem reaper_sweeps_expired_witness :
    ¬ (reap 1000 ⟨mapSet mapEmpty "c" ⟨"ch", "plain", "cl", "r", 500⟩,
        mapSet mapEmpty "t" ⟨2000⟩⟩).codes "c" =
      some ⟨"ch", "plain", "cl", "r", 500⟩ ∧
    (reap 1000 ⟨mapSet mapEmpty "c" ⟨"ch", "plain", "cl", "r", 500⟩,
        mapSet mapEmpty "t" ⟨2000⟩⟩).tokens "t" = some ⟨2000⟩ := by
  constructor
  · intro h
    exact absurd (reaper_sweeps_expired.2.2.2.1 1000 _ "c" _ h) (by decide)
  · exact (reaper_sweeps_expired.2.2.1 1000 _ "t" ⟨2000⟩).mpr ⟨by decide, by decide⟩

/-- C5 counterexample. When the presented token equals the configured
static API key and the same string is also present in the dynamic
store with its expiry passed, validateAccessToken returns true and
does not delete the stored entry, against the claim that a token
found in the store but expired is evicted with result false. -/
theorem access_token_validation_counterexample :
    (validateAccessToken "k" ⟨"k", 1, none, none⟩
        (mapSet mapEmpty "k" ⟨5⟩) 10).1 = true ∧
    (validateAccessToken "k" ⟨"k", 1, none, none⟩
        (mapSet mapEmpty "k" ⟨5⟩) 10).2 "k" = some ⟨5⟩ ∧
    (5 : Nat) < 10 := by
  decide

/-- C5 amended. validateAccessToken returns true iff the token equals
the configured (non-empty) static API key or is stored and
unexpired; when the token does not match the static key but is
found in the store expired, the entry is deleted at validation time
and the result is false even without a reaper sweep; and a
successful validation leaves the store, hence every stored expiry,
unchanged. -/
theorem access_token_validation_behavior :
    (∀ (token : String) (config : Config) (store : TokenStore) (now : Nat),
      (validateAccessToken token config store now).1 = true ↔
        ((config.apiKey ≠ "" ∧ token = config.apiKey) ∨
          (∃ d, store token = some d ∧ ¬ d.expiresAt < now))) ∧
    (∀ (token : String) (config : Config) (store : TokenStore) (now : Nat)
      (d : TokenData),
      ¬ (config.apiKey ≠ "" ∧ token = config.apiKey) →
      store token = some d → d.expiresAt < now →
      (validateAccessToken token config store now).1 = false ∧
      (validateAccessToken token config store now).2 token = none) ∧
    (∀ (token : String) (config : Config) (store : TokenStore) (now : Nat),
      (validateAccessToken token config store now).1 = true →
      ∀ k, (validateAccessToken token config store now).2 k = store k) := by
  refine ⟨?_, ?_, ?_⟩
  · intro token config store now
    by_cases hapi : config.apiKey ≠ "" ∧ token = config.apiKey
    · simp [validateAccessToken, hapi]
    · simp only [validateAccessToken, if_neg hapi]
      cases h : store token with
      | none => simp [h, hapi]
      | some d =>
        by_cases hexp : d.expiresAt < now
        · simp [h, hexp, hapi]
        · simp [h, hexp, hapi]
          omega
  · intro token config store now d hapi h hexp
    simp [validateAccessToken, hapi, h, hexp, mapDelete]
  · intro token config store now hvalid k
    by_cases hapi : config.apiKey ≠ "" ∧ token = config.apiKey
    · simp [validateAccessToken, hapi]
    · simp only [validateAccessToken, if_neg hapi] at hvalid ⊢
      cases h : store token with
      | none => simp [h] at hvalid ⊢
      | some d =>
        by_cases hexp : d.expiresAt < now
        · simp [h, hexp] at hvalid
        · simp [h, hexp]

/-- Witness for amended C5 at concrete inputs: with static key "x",
the stored token "t" expired at time 5 fails validation at time 10
and is evicted without any reaper sweep. -/
theorem access_token_validation_behavior_witness :
    (validateAccessToken "t" ⟨"x", 1, none, none⟩
        (mapSet mapEmpty "t" ⟨5⟩) 10).1 = false ∧
    (validateAccessToken "t" ⟨"x", 1, none, none⟩
        (mapSet mapEmpty "t" ⟨5⟩) 10).2 "t" = none :=
  access_token_validation_behavior.2.1 "t" ⟨"x", 1, none, none⟩
    (mapSet mapEmpty "t" ⟨5⟩) 10 ⟨5⟩ (by decide) (by decide) (by decide)

/-- C2 counterexample. The apiKey comparison in validateAccessToken
is the plain JavaScript string equality: under the short-circuit
cost model, against the key "aa" the equal-length wrong tokens "ab"
and "ba" cost 2 and 1 comparisons respectively, so the running time
depends on the position of the first differing byte. -/
theorem token_compare_constant_time_counterexample :
    "ab" ≠ "aa" ∧ "ba" ≠ "aa" ∧
    "ab".length = "aa".length ∧ "ba".length = "aa".length ∧
    validateAccessTokenCompareCost "ab" ⟨"aa", 1, none, none⟩ = 2 ∧
    validateAccessTokenCompareCost "ba" ⟨"aa", 1, none, none⟩ = 1 := by
  decide

/-- C2 amended. The apiKey comparison in validateAccessToken is
ordinary short-circuit string equality, whose cost on inputs
differing first at position p (after a common prefix of length p)
is p + 1, hence dependent on the position of the first differing
byte; the constant-time comparison exists in the module but is used
for the client-credential checks, where the cost on equal-length
inputs is the full length regardless of contents. -/
theorem token_compare_cost_behavior :
    (∀ (p s₁ s₂ : List Char) (c₁ c₂ : Char), c₁ ≠ c₂ →
      shortCircuitEqCost (p ++ c₁ :: s₁) (p ++ c₂ :: s₂) = p.length + 1) ∧
    (∀ a b : String, a.length = b.length → timingSafeEqualCost a b = a.length) ∧
    (∀ (token : String) (config : Config),
      validateAccessTokenCompareCost token config = jsStrEqCost token config.apiKey) := by
  refine ⟨?_, ?_, fun _ _ => rfl⟩
  · intro p s₁ s₂ c₁ c₂ hne
    induction p with
    | nil => simp [shortCircuitEqCost, hne]
    | cons a as ih => simp [shortCircuitEqCost, ih]; omega
  · intro a b h
    simp [timingSafeEqualCost, h]

/-- Witness for amended C2 at concrete inputs: a first difference
after a one-character common prefix costs two comparisons, while
the timing-safe comparison of the equal-length strings "xy" and
"ab" costs their full length. -/
theorem token_compare_cost_behavior_witness :
    shortCircuitEqCost (['a'] ++ ['b'] ++ []) (['a'] ++ ['c'] ++ []) = 2 ∧
    timingSafeEqualCost "xy" "ab" = "xy".length :=
  ⟨token_compare_cost_behavior.1 ['a'] [] [] 'b' 'c' (by decide),
    token_compare_cost_behavior.2.1 "xy" "ab" (by decide)⟩

/-- C3. An operation name that does not resolve in the registry fails
with MethodNotFound; a resolved tool whose required level exceeds
the configured level fails with a message naming the required and
the current level, and its handler is not invoked (the dispatch
performs zero handler calls); and a tool is listed for level L
exactly when it is registered with level at most L. -/
theorem capability_gate :
    (∀ (tools : List ToolDefinition) (config : Config) (name : String) (args : Json),
      getTool tools name = none →
      handleCallTool tools config name args =
        (.methodNotFound ("Tool not found: " ++ name), 0)) ∧
    (∀ (tools : List ToolDefinition) (config : Config) (name : String)
      (args : Json) (tool : ToolDefinition),
      getTool tools name = some tool →
      tool.level > config.capabilityLevel →
      handleCallTool tools config name args =
        (.invalidRequest ("Tool " ++ name ++ " requires capability level " ++
          toString tool.level ++ ", current level is " ++
          toString config.capabilityLevel), 0)) ∧
    (∀ (tools : List ToolDefinition) (level : Nat) (tool : ToolDefinition),
      tool ∈ getToolsForLevel tools level ↔ tool ∈ tools ∧ tool.level ≤ level) := by
  refine ⟨?_, ?_, ?_⟩
  · intro tools config name args h
    simp [handleCallTool, h]
  · intro tools config name args tool h hlvl
    simp [handleCallTool, h, hlvl]
  · intro tools level tool
    simp [getToolsForLevel, List.mem_filter]

/-- Witness for C3 at concrete inputs: with the sample registry at
levels 1, 2 and 4 and configured level 2, dispatching the level-4
tool is denied with a message naming levels 4 and 2 and zero
handler invocations, the level-4 tool is not listed, an unknown
name fails with MethodNotFound, and the listed set is exactly the
level-1 and level-2 tools. -/
theorem capability_gate_witness :
    handleCallTool sampleRegistry ⟨"", 2, none, none⟩ "t4" .null =
      (.invalidRequest "Tool t4 requires capability level 4, current level is 2", 0) ∧
    (⟨"t4", 4, noopHandler⟩ : ToolDefinition) ∉ getToolsForLevel sampleRegistry 2 ∧
    handleCallTool sampleRegistry ⟨"", 2, none, none⟩ "nope" .null =
      (.methodNotFound "Tool not found: nope", 0) ∧
    ((⟨"t1", 1, noopHandler⟩ : ToolDefinition) ∈ getToolsForLevel sampleRegistry 2 ∧
      (⟨"t2", 2, noopHandler⟩ : ToolDefinition) ∈ getToolsForLevel sampleRegistry 2) := by
  refine ⟨?_, ?_, ?_, ?_, ?_⟩
  · exact capability_gate.2.1 sampleRegistry ⟨"", 2, none, none⟩ "t4" .null
      ⟨"t4", 4, noopHandler⟩ rfl (by decide)
  · intro hmem
    exact absurd ((capability_gate.2.2 sampleRegistry 2 ⟨"t4", 4, noopHandler⟩).mp hmem).2
      (by decide)
  · exact capability_gate.1 sampleRegistry ⟨"", 2, none, none⟩ "nope" .null rfl
  · exact (capability_gate.2.2 sampleRegistry 2 ⟨"t1", 1, noopHandler⟩).mpr
      ⟨by simp [sampleRegistry], by decide⟩
  · exact (capability_gate.2.2 sampleRegistry 2 ⟨"t2", 2, noopHandler⟩).mpr
      ⟨by simp [sampleRegistry], by decide⟩

/-- C4. PKCE verification: for method S256 the check succeeds exactly
when the URL-safe unpadded base64 encoding of the SHA-256 digest of
the verifier equals the challenge; for method plain exactly when
the verifier equals the challenge; and any other method fails for
all inputs. -/
theorem pkce_verification :
    (∀ v c : String, validatePKCE v c "S256" = true ↔
      base64UrlEncode (sha256 (strBytes v)) = c) ∧
    (∀ v c : String, validatePKCE v c "plain" = true ↔ v = c) ∧
    (∀ v c m : String, m ≠ "S256" → m ≠ "plain" → validatePKCE v c m = false) := by
  refine ⟨?_, ?_, ?_⟩
  · intro v c
    simp [validatePKCE]
  · intro v c
    simp [validatePKCE]
  · intro v c m h₁ h₂
    simp [validatePKCE, h₁, h₂]

/-- Witness for C4 at concrete inputs: the verifier abc123 validates
against the base64url-encoded SHA-256 challenge under S256, a plain
verifier must equal its challenge, and an unknown method fails. -/
theorem pkce_verification_witness :
    validatePKCE "abc123" "bKE9UspwyIPg8LsQHkJaiehiTeUdstI5JZOvaoQRgJA" "S256" = true ∧
    validatePKCE "ver" "ver" "plain" = true ∧
    validatePKCE "ver" "ver" "S512" = false := by
  refine ⟨?_, ?_, ?_⟩
  · exact (pkce_verification.1 "abc123" "bKE9UspwyIPg8LsQHkJaiehiTeUdstI5JZOvaoQRgJA").mpr
      (by decide)
  · exact (pkce_verification.2.1 "ver" "ver").mpr rfl
  · exact pkce_verification.2.2 "ver" "ver" "S512" (by decide) (by decide)

/-- C7 counterexample. A handler that throws an Error whose message
is the empty string is intercepted, but the structured payload's
message is empty, against the claim that the returned message is
always non-empty. -/
theorem dispatcher_error_envelope_counterexample :
    handleCallTool emptyMessageRegistry ⟨"", 4, none, none⟩ "boom" .null =
      (.reply (toolErrorPayload "") true, 1) ∧
    toolErrorPayload "" = .obj [("error", .bool true),
      ("code", .str "TOOL_EXECUTION_ERROR"), ("message", .str "")] ∧
    "".length = 0 :=
  ⟨rfl, rfl, rfl⟩

/-- C7 amended. A handler failure is always intercepted: the dispatch
returns the structured TOOL_EXECUTION_ERROR payload carrying the
thrown Error's message (or the fixed fallback for a non-Error
value) with the isError marker set, never a protocol-level fault;
the message is non-empty whenever the thrown Error's message is,
and the fallback is non-empty; a normally returning handler's
result is returned without the isError marker. -/
theorem dispatcher_error_envelope :
    (∀ (tools : List ToolDefinition) (config : Config) (name : String)
      (args : Json) (tool : ToolDefinition) (e : JsThrown),
      getTool tools name = some tool →
      ¬ tool.level > config.capabilityLevel →
      tool.handler args config = .error e →
      handleCallTool tools config name args =
        (.reply (toolErrorPayload (errorMessageOf e)) true, 1)) ∧
    (∀ m : String, m ≠ "" → errorMessageOf (.errObj m) ≠ "") ∧
    (errorMessageOf .nonError = "Unknown error" ∧ "Unknown error" ≠ "") ∧
    (∀ (tools : List ToolDefinition) (config : Config) (name : String)
      (args : Json) (tool : ToolDefinition) (r : Json),
      getTool tools name = some tool →
      ¬ tool.level > config.capabilityLevel →
      tool.handler args config = .ok r →
      handleCallTool tools config name args = (.reply r false, 1)) := by
  refine ⟨?_, fun m hm => hm, ⟨rfl, by decide⟩, ?_⟩
  · intro tools config name args tool e h hlvl he
    simp [handleCallTool, h, hlvl, he]
  · intro tools config name args tool r h hlvl hr
    simp [handleCallTool, h, hlvl, hr]

/-- Witness for amended C7 at concrete inputs: the throwing tool
yields the isError envelope with the non-empty message fail, and
the normal tool returns its result without the marker. -/
theorem dispatcher_error_envelope_witness :
    handleCallTool mixedRegistry ⟨"", 4, none, none⟩ "fail" .null =
      (.reply (toolErrorPayload "fail") true, 1) ∧
    errorMessageOf (.errObj "fail") ≠ "" ∧
    handleCallTool mixedRegistry ⟨"", 4, none, none⟩ "ok" .null =
      (.reply (.str "ok") false, 1) :=
  ⟨dispatcher_error_envelope.1 mixedRegistry ⟨"", 4, none, none⟩ "fail" .null
      ⟨"fail", 1, failingHandler⟩ (.errObj "fail") rfl (by decide) rfl,
    dispatcher_error_envelope.2.1 "fail" (by decide),
    dispatcher_error_envelope.2.2.2 mixedRegistry ⟨"", 4, none, none⟩ "ok" .null
      ⟨"ok", 1, noopHandler⟩ (.str "ok") rfl (by decide) rfl⟩

/-- C8. Behavior of POST /oauth/token with OAuth configured. The
authorization_code grant returns 200 with the bearer success shape
when redemption succeeds, 400 invalid_request when any of code,
code_verifier, redirect_uri or client_id is missing (falsy), and
400 invalid_grant when redemption fails; the client_credentials
grant returns the same success shape exactly on matching
credentials, 400 invalid_request on missing fields and 401
invalid_client on a mismatch; any other grant_type gets 400
unsupported_grant_type. -/
theorem token_endpoint_behavior (config : Config) (st : OAuthState)
    (now : Nat) (freshToken : String) (clientSecret : Option String)
    (hOAuth : hasOAuthConfig config = true) :
    (∀ code codeVerifier redirectUri clientId : Option String,
      (optFalsy code || optFalsy codeVerifier || optFalsy redirectUri ||
        optFalsy clientId) = true →
      (tokenEndpoint (some "authorization_code") clientId clientSecret code
        codeVerifier redirectUri config st now freshToken).1 =
        ⟨400, .oauthError "invalid_request"
          "Missing code, code_verifier, redirect_uri, or client_id"⟩) ∧
    (∀ code codeVerifier redirectUri clientId : Option String,
      (optFalsy code || optFalsy codeVerifier || optFalsy redirectUri ||
        optFalsy clientId) = false →
      (validateAuthorizationCode (code.getD "") (clientId.getD "")
        (redirectUri.getD "") (codeVerifier.getD "") now st.codes).1.valid = false →
      (tokenEndpoint (some "authorization_code") clientId clientSecret code
        codeVerifier redirectUri config st now freshToken).1 =
        ⟨400, .oauthError "invalid_grant"
          ((validateAuthorizationCode (code.getD "") (clientId.getD "")
            (redirectUri.getD "") (codeVerifier.getD "") now st.codes).1.error.getD "")⟩) ∧
    (∀ code codeVerifier redirectUri clientId : Option String,
      (optFalsy code || optFalsy codeVerifier || optFalsy redirectUri ||
        optFalsy clientId) = false →
      (validateAuthorizationCode (code.getD "") (clientId.getD "")
        (redirectUri.getD "") (codeVerifier.getD "") now st.codes).1.valid = true →
      (tokenEndpoint (some "authorization_code") clientId clientSecret code
        codeVerifier redirectUri config st now freshToken).1 =
        ⟨200, .success ⟨freshToken, "Bearer", 3600⟩⟩) ∧
    (∀ clientId clientSecret₂ : Option String,
      (optFalsy clientId || optFalsy clientSecret₂) = true →
      (tokenEndpoint (some "client_credentials") clientId clientSecret₂ none
        none none config st now freshToken).1 =
        ⟨400, .oauthError "invalid_request" "Missing client_id or client_secret"⟩) ∧
    (∀ clientId clientSecret₂ : Option String,
      (optFalsy clientId || optFalsy clientSecret₂) = false →
      validateClientCredentials (clientId.getD "") (clientSecret₂.getD "") config = false →
      (tokenEndpoint (some "client_credentials") clientId clientSecret₂ none
        none none config st now freshToken).1 =
        ⟨401, .oauthError "invalid_client" "Invalid client credentials"⟩) ∧
    (∀ clientId clientSecret₂ : Option String,
      (optFalsy clientId || optFalsy clientSecret₂) = false →
      validateClientCredentials (clientId.getD "") (clientSecret₂.getD "") config = true →
      (tokenEndpoint (some "client_credentials") clientId clientSecret₂ none
        none none config st now freshToken).1 =
        ⟨200, .success ⟨freshToken, "Bearer", 3600⟩⟩) ∧
    (∀ x y : String, validateClientCredentials x y config = true ↔
      (x = config.oauthClientId.getD "" ∧ y = config.oauthClientSecret.getD "")) ∧
    (∀ grantType : Option String,
      grantType ≠ some "authorization_code" →
      grantType ≠ some "client_credentials" →
      (tokenEndpoint grantType clientSecret clientSecret none none none config
        st now freshToken).1 =
        ⟨400, .oauthError "unsupported_grant_type"
          "Supported grant types: authorization_code, client_credentials"⟩) := by
  have hfals : (optFalsy config.oauthClientId = false) ∧
      (optFalsy config.oauthClientSecret = false) := by
    simpa [hasOAuthConfig] using hOAuth
  refine ⟨?_, ?_, ?_, ?_, ?_, ?_, ?_, ?_⟩
  · intro code codeVerifier redirectUri clientId hmiss
    simp [tokenEndpoint, hOAuth, hmiss]
  · intro code codeVerifier redirectUri clientId hmiss hval
    simp [tokenEndpoint, hOAuth, hmiss, hval]
  · intro code codeVerifier redirectUri clientId hmiss hval
    simp [tokenEndpoint, hOAuth, hmiss, hval, issueToken, TOKEN_EXPIRATION]
  · intro clientId clientSecret₂ hmiss
    simp [tokenEndpoint, hOAuth, hmiss]
  · intro clientId clientSecret₂ hmiss hcred
    simp [tokenEndpoint, hOAuth, hmiss, hcred]
  · intro clientId clientSecret₂ hmiss hcred
    simp [tokenEndpoint, hOAuth, hmiss, hcred, issueToken, TOKEN_EXPIRATION]
  · intro x y
    simp [validateClientCredentials, hfals.1, hfals.2, timingSafeEqual_iff]
  · intro grantType hg₁ hg₂
    simp [tokenEndpoint, hOAuth, hg₁, hg₂]

/-- Witness for C8 at concrete inputs: with a stored plain-challenge
code, the authorization_code grant returns 200 with the bearer
shape; a missing verifier gives 400 invalid_request; matching
client credentials give 200; and a password grant gives 400
unsupported_grant_type. -/
theorem token_endpoint_behavior_witness :
    (tokenEndpoint (some "authorization_code") (some "cl") none (some "code1")
        (some "ver") (some "https://cb")
        ⟨"", 4, some "cid", some "sec"⟩
        ⟨mapSet mapEmpty "code1" ⟨"ver", "plain", "cl", "https://cb", 600000⟩,
          mapEmpty⟩ 0 "tok").1 =
      ⟨200, .success ⟨"tok", "Bearer", 3600⟩⟩ ∧
    (tokenEndpoint (some "authorization_code") (some "cl") none (some "code1")
        none (some "https://cb") ⟨"", 4, some "cid", some "sec"⟩
        ⟨mapSet mapEmpty "code1" ⟨"ver", "plain", "cl", "https://cb", 600000⟩,
          mapEmpty⟩ 0 "tok").1 =
      ⟨400, .oauthError "invalid_request"
        "Missing code, code_verifier, redirect_uri, or client_id"⟩ ∧
    (tokenEndpoint (some "client_credentials") (some "cid") (some "sec") none
        none none ⟨"", 4, some "cid", some "sec"⟩ ⟨mapEmpty, mapEmpty⟩ 0 "tok").1 =
      ⟨200, .success ⟨"tok", "Bearer", 3600⟩⟩ ∧
    (tokenEndpoint (some "password") none none none none none
        ⟨"", 4, some "cid", some "sec"⟩ ⟨mapEmpty, mapEmpty⟩ 0 "tok").1 =
      ⟨400, .oauthError "unsupported_grant_type"
        "Supported grant types: authorization_code, client_credentials"⟩ := by
  refine ⟨?_, ?_, ?_, ?_⟩
  · exact (token_endpoint_behavior ⟨"", 4, some "cid", some "sec"⟩
      ⟨mapSet mapEmpty "code1" ⟨"ver", "plain", "cl", "https://cb", 600000⟩, mapEmpty⟩
      0 "tok" none (by decide)).2.2.1 (some "code1") (some "ver") (some "https://cb")
      (some "cl") (by decide) (by decide)
  · exact (token_endpoint_behavior ⟨"", 4, some "cid", some "sec"⟩
      ⟨mapSet mapEmpty "code1" ⟨"ver", "plain", "cl", "https://cb", 600000⟩, mapEmpty⟩
      0 "tok" none (by decide)).1 (some "code1") none (some "https://cb")
      (some "cl") (by decide)
  · exact (token_endpoint_behavior ⟨"", 4, some "cid", some "sec"⟩
      ⟨mapEmpty, mapEmpty⟩ 0 "tok" (some "sec") (by decide)).2.2.2.2.2.1
      (some "cid") (some "sec") (by decide) (by decide)
  · exact (token_endpoint_behavior ⟨"", 4, some "cid", some "sec"⟩
      ⟨mapEmpty, mapEmpty⟩ 0 "tok" none (by decide)).2.2.2.2.2.2.2
      (some "password") (by decide) (by decide)

/-- C10. The authorization-code flow never checks the presented
client_id against the configured OAuth client: for any non-empty
client_id, redirect URI and challenge, GET /authorize with
response_type code issues a code for that client_id, and the token
endpoint's authorization_code grant then redeems it successfully
given the same client_id and redirect URI and a matching verifier,
with no hypothesis relating the client_id to config.oauthClientId. -/
theorem authorize_flow_no_client_check (config : Config)
    (codes : CodeStore) (tokens : TokenStore) (now₁ now₂ : Nat)
    (cid ruri ch freshCode verifier freshToken : String)
    (methodParam state clientSecret : Option String)
    (hOAuth : hasOAuthConfig config = true)
    (hcid : cid ≠ "") (hruri : ruri ≠ "") (hch : ch ≠ "")
    (hcode : freshCode ≠ "") (hver : verifier ≠ "")
    (hpkce : validatePKCE verifier ch
      (if optFalsy methodParam then "plain" else methodParam.getD "") = true)
    (hexp : ¬ now₁ + AUTH_CODE_EXPIRATION * 1000 < now₂) :
    (authorizeEndpoint (some "code") (some cid) (some ruri) (some ch)
        methodParam state config codes now₁ freshCode).1 =
      .redirect ruri freshCode state ∧
    (tokenEndpoint (some "authorization_code") (some cid) clientSecret
        (some freshCode) (some verifier) (some ruri) config
        ⟨(authorizeEndpoint (some "code") (some cid) (some ruri) (some ch)
            methodParam state config codes now₁ freshCode).2, tokens⟩
        now₂ freshToken).1 =
      ⟨200, .success ⟨freshToken, "Bearer", 3600⟩⟩ := by
  have hauth : authorizeEndpoint (some "code") (some cid) (some ruri) (some ch)
      methodParam state config codes now₁ freshCode =
      (.redirect ruri freshCode state,
        mapSet codes freshCode
          ⟨ch, if optFalsy methodParam then "plain" else methodParam.getD "",
            cid, ruri, now₁ + AUTH_CODE_EXPIRATION * 1000⟩) := by
    simp [authorizeEndpoint, hOAuth, optFalsy, hcid, hruri, hch,
      createAuthorizationCode]
  refine ⟨by rw [hauth], ?_⟩
  rw [hauth]
  have hval : validateAuthorizationCode freshCode cid ruri verifier now₂
      (mapSet codes freshCode
        ⟨ch, if optFalsy methodParam then "plain" else methodParam.getD "",
          cid, ruri, now₁ + AUTH_CODE_EXPIRATION * 1000⟩) =
      (⟨true, none⟩,
        mapDelete (mapSet codes freshCode
          ⟨ch, if optFalsy methodParam then "plain" else methodParam.getD "",
            cid, ruri, now₁ + AUTH_CODE_EXPIRATION * 1000⟩) freshCode) := by
    simp [validateAuthorizationCode, mapSet_self, hexp, hpkce]
  have hf₁ : optFalsy (some freshCode) = false := by simp [optFalsy, hcode]
  have hf₂ : optFalsy (some verifier) = false := by simp [optFalsy, hver]
  have hf₃ : optFalsy (some ruri) = false := by simp [optFalsy, hruri]
  have hf₄ : optFalsy (some cid) = false := by simp [optFalsy, hcid]
  simp [tokenEndpoint, hOAuth, hf₁, hf₂, hf₃, hf₄, hval,
    issueToken, TOKEN_EXPIRATION]

/-- Witness for C10 at concrete inputs: a client_id different from
the configured OAuth client id ("visitor" against configured
"cfgid") still obtains a code from /authorize and redeems it at the
token endpoint for a bearer token. -/
theorem authorize_flow_no_client_check_witness :
    (authorizeEndpoint (some "code") (some "visitor") (some "https://cb")
        (some "ver") none none ⟨"", 4, some "cfgid", some "cfgsec"⟩
        mapEmpty 0 "c1").1 = .redirect "https://cb" "c1" none ∧
    (tokenEndpoint (some "authorization_code") (some "visitor") none
        (some "c1") (some "ver") (some "https://cb")
        ⟨"", 4, some "cfgid", some "cfgsec"⟩
        ⟨(authorizeEndpoint (some "code") (some "visitor") (some "https://cb")
            (some "ver") none none ⟨"", 4, some "cfgid", some "cfgsec"⟩
            mapEmpty 0 "c1").2, mapEmpty⟩ 0 "t1").1 =
      ⟨200, .success ⟨"t1", "Bearer", 3600⟩⟩ :=
  authorize_flow_no_client_check ⟨"", 4, some "cfgid", some "cfgsec"⟩
    mapEmpty mapEmpty 0 0 "visitor" "https://cb" "ver" "c1" "ver" "t1"
    none none none (by decide) (by decide) (by decide) (by decide)
    (by decide) (by decide) (by decide) (by decide)

end HomelabMcp
